import Mathlib

/-!
Shallow embedding of the `ramses_cc` adapter layer
(`custom_components/ramses_cc/__init__.py` and
`custom_components/ramses_cc/binary_sensor.py`) and proofs about it.

The external libraries (`ramses_rf`/`ramses_tx`, the home-automation host
platform) are modelled only through the values and outcomes the adapter
observes: the broker configuration, message fields, client-call outcomes,
and the host event bus as a list of fired events.
-/

namespace RamsesCC

/-- A Python value as observed by the adapter: `None`, a boolean, a string,
or an integer.  Used for device attribute values and event payloads. -/
inductive PyVal where
  | pnone
  | pbool (b : Bool)
  | pstr (s : String)
  | pint (n : Int)
deriving DecidableEq

/-- Python truthiness for the values the adapter tests. -/
def PyVal.truthy : PyVal → Bool
  | .pnone => false
  | .pbool b => b
  | .pstr s => !s.isEmpty
  | .pint n => n ≠ 0

/-- Python truthiness of an optional string (`None` and `""` are falsy). -/
def optStrTruthy : Option String → Bool
  | none => false
  | some s => !s.isEmpty

/-- Modelled from `const.py` (part of this repository, not under src):
the integration's domain name. -/
def DOMAIN : String := "ramses_cc"

/-- Modelled from `const.py`: the bind-device service name. -/
def SVC_BIND_DEVICE : String := "bind_device"

/-- Modelled from `const.py`: the fake-device service name. -/
def SVC_FAKE_DEVICE : String := "fake_device"

/-- Modelled from `const.py`: the force-update service name. -/
def SVC_FORCE_UPDATE : String := "force_update"

/-- Modelled from `const.py`: the send-packet service name. -/
def SVC_SEND_PACKET : String := "send_packet"

/-- The `advanced_features` section of the domain configuration, as read by
`__init__.py`: `message_events` holds the compiled regex when set (a compiled
pattern is always truthy, so `Option` captures the truthiness test), modelled
by its match function on the message repr; `send_packet` is the flag read by
`register_domain_services`. -/
structure AdvancedFeatures where
  message_events : Option (String → Bool)
  send_packet : Bool

/-- The broker state observed by `__init__.py`: its configuration's
advanced-features section and `learn_device_id` (a device-id string or
`None`). -/
structure Broker where
  advanced_features : AdvancedFeatures
  learn_device_id : Option String

/-- A protocol message as observed by `process_msg`: the fields read to build
event data, plus the string `repr` the message-events regex is matched
against. -/
structure Msg where
  dtm_isoformat : String
  src_id : String
  dst_id : String
  verb : String
  code : String
  payload : PyVal
  pkt_str : String
  repr_str : String
deriving DecidableEq

/-- An event fired on the host event bus: its type and its data dict. -/
structure BusEvent where
  event_type : String
  data : List (String × PyVal)
deriving DecidableEq

/-- The event data built for a `ramses_cc_message` event
(`__init__.py`, `process_msg`). -/
def messageEventData (msg : Msg) : List (String × PyVal) :=
  [("dtm", .pstr msg.dtm_isoformat),
   ("src", .pstr msg.src_id),
   ("dst", .pstr msg.dst_id),
   ("verb", .pstr msg.verb),
   ("code", .pstr msg.code),
   ("payload", msg.payload),
   ("packet", .pstr msg.pkt_str)]

/-- The event data built for a `ramses_cc_learn` event
(`__init__.py`, `process_msg`). -/
def learnEventData (msg : Msg) : List (String × PyVal) :=
  [("src", .pstr msg.src_id),
   ("code", .pstr msg.code),
   ("packet", .pstr msg.pkt_str)]

/-- The first block of `process_msg` (`__init__.py`): a `ramses_cc_message`
event is fired when the configured message-events regex is set (a compiled
pattern is always truthy) and matches the message repr. -/
def messagePartEvents (broker : Broker) (msg : Msg) : List BusEvent :=
  match broker.advanced_features.message_events with
  | some regex =>
      if regex msg.repr_str then
        [⟨DOMAIN ++ "_message", messageEventData msg⟩]
      else []
  | none => []

/-- The second block of `process_msg` (`__init__.py`): a `ramses_cc_learn`
event is fired when `broker.learn_device_id` is truthy (non-None and
non-empty) and equals the message's source id. -/
def learnPartEvents (broker : Broker) (msg : Msg) : List BusEvent :=
  match broker.learn_device_id with
  | some lid =>
      if !lid.isEmpty && lid == msg.src_id then
        [⟨DOMAIN ++ "_learn", learnEventData msg⟩]
      else []
  | none => []

/-- The message handler registered by `register_domain_events`
(`__init__.py`): returns the events it fires on the host bus, in order
(the message-event block, then the learn-event block). -/
def process_msg (broker : Broker) (msg : Msg) : List BusEvent :=
  messagePartEvents broker msg ++ learnPartEvents broker msg

/-- A service registration performed on the host platform
(`hass.services.async_register`). -/
structure ServiceReg where
  domain : String
  service : String
deriving DecidableEq

/-- The service registrations performed by `register_domain_services`
(`__init__.py`): `bind_device`, `fake_device` and `force_update` are always
registered under the integration's domain; `send_packet` is registered only
when the `send_packet` advanced feature is set in the broker's config. -/
def register_domain_services (broker : Broker) : List ServiceReg :=
  [⟨DOMAIN, SVC_BIND_DEVICE⟩, ⟨DOMAIN, SVC_FAKE_DEVICE⟩, ⟨DOMAIN, SVC_FORCE_UPDATE⟩] ++
  (if broker.advanced_features.send_packet then [⟨DOMAIN, SVC_SEND_PACKET⟩] else [])

/-- The host-platform state mutated by `async_setup`: the broker slot in
`hass.data[DOMAIN]`, the registered services, and the number of message
handlers added to the client by `register_domain_events`. -/
structure HassState where
  data_broker : Option Broker
  services : List ServiceReg
  client_msg_handlers : Nat

/-- The outcome of `await broker.start()`: success, or a
`TransportSerialError` (with its message) raised by the transport. -/
inductive StartOutcome where
  | ok
  | transportSerialError (emsg : String)

/-- `async_setup` (`__init__.py`): starts the broker; on
`TransportSerialError` it logs and returns `False` with the host state
untouched; on success it stores the broker in `hass.data`, registers the
domain services and the message handler, and returns `True`. -/
def async_setup (st : HassState) (broker : Broker) (start : StartOutcome) :
    Bool × HassState :=
  match start with
  | .transportSerialError _ => (false, st)
  | .ok =>
      (true,
        { st with
          data_broker := some broker,
          services := st.services ++ register_domain_services broker,
          client_msg_handlers := st.client_msg_handlers + 1 })

/-- The outcome of a call to the external client's `fake_device` operation,
as distinguished by the adapter's handlers: normal return, or a raised
`LookupError` (with its message). -/
inductive FakeResult where
  | ok
  | lookupError (emsg : String)
deriving DecidableEq

/-- Whether the client operation returned normally. -/
def FakeResult.isOk : FakeResult → Bool
  | .ok => true
  | .lookupError _ => false

/-- The data dict of a service call (`call.data`). -/
abbrev CallData := List (String × PyVal)

/-- The observable effect of the bind-device/fake-device handlers: the
argument dict passed to the client's `fake_device`, and the delay of the
deferred `broker.async_update` scheduled via `async_call_later`
(`none` when no update was scheduled). -/
structure DeviceSvcEffect where
  client_called_with : CallData
  scheduled_delay : Option Nat

/-- `async_bind_device` (`__init__.py`, inside `register_domain_services`):
passes the call data to the client's `fake_device`; on `LookupError` it logs
and returns with no deferred update; otherwise it schedules
`broker.async_update` 5 seconds later.  The client operation is supplied as
a function from the call data to its outcome. -/
def async_bind_device (fake_device : CallData → FakeResult) (data : CallData) :
    DeviceSvcEffect :=
  match fake_device data with
  | .lookupError _ => ⟨data, none⟩
  | .ok => ⟨data, some 5⟩

/-- `async_fake_device` (`__init__.py`, inside `register_domain_services`):
identical body to `async_bind_device`. -/
def async_fake_device (fake_device : CallData → FakeResult) (data : CallData) :
    DeviceSvcEffect :=
  match fake_device data with
  | .lookupError _ => ⟨data, none⟩
  | .ok => ⟨data, some 5⟩

/-- The fields of a `send_packet` service-call data dict as handled by
`async_send_packet` (`from_id` is read with a default, so it is optional). -/
structure SendPacketData where
  device_id : String
  from_id : Option String
  verb : String
  code : String
  payload : String
deriving DecidableEq

/-- The kwargs dict handed to `broker.client.create_cmd` by
`async_send_packet` (`__init__.py`): a copy of the call data in which
`device_id` is replaced by the client's gateway id (`broker.client.hgi.id`,
passed here as `hgi_id`, truthy when non-empty) exactly when the call's
`device_id` is the sentinel `"18:000730"`, `from_id` is absent or the
sentinel, and the gateway id is truthy. -/
def async_send_packet (hgi_id : String) (data : SendPacketData) :
    SendPacketData :=
  if data.device_id == "18:000730" &&
      data.from_id.getD "18:000730" == "18:000730" &&
      !hgi_id.isEmpty then
    { data with device_id := hgi_id }
  else
    data

/-- The `ramses_rf`/`ramses_tx` classes used as `rf_class` in the
binary-sensor mapping table (`binary_sensor.py`). -/
inductive RfClass where
  | ramsesRFEntity
  | gateway
  | system
  | logbook
deriving DecidableEq

/-- The entity classes used as `entity_class` in the binary-sensor mapping
table: the generic `RamsesBinarySensor` and its three subclasses. -/
inductive BinarySensorClass where
  | generic
  | gatewaySensor
  | systemSensor
  | logbookSensor
deriving DecidableEq

/-- A protocol device as observed by the binary-sensor platform: its id, the
`rf_class`es it is an instance of, and its attributes as a name/value
association list (`lookup` failing models a missing attribute). -/
structure Device where
  id : String
  classes : List RfClass
  attrs : List (String × PyVal)
deriving DecidableEq

/-- `getattr` on a device: the attribute's value, or `none` when the device
has no such attribute (a raised `AttributeError`). -/
def Device.pyGetattr (device : Device) (a : String) : Option PyVal :=
  device.attrs.lookup a

/-- `hasattr` on a device. -/
def Device.pyHasattr (device : Device) (a : String) : Bool :=
  (device.attrs.lookup a).isSome

/-- Modelled from `ramses_rf.schemas`: the external string constant. -/
def SZ_SCHEMA : String := "schema"

/-- Modelled from `ramses_rf.device.heat`: `TrvActuator.WINDOW_OPEN`. -/
def TrvActuator.WINDOW_OPEN : String := "window_open"

/-- Modelled from `ramses_rf.device.heat`: `Actuator.ACTUATOR_STATE`. -/
def Actuator.ACTUATOR_STATE : String := "actuator_state"

/-- Modelled from `ramses_rf.device.base`: `BatteryState.BATTERY_LOW`. -/
def BatteryState.BATTERY_LOW : String := "battery_low"

/-- Modelled from `ramses_rf.device.base`: `BatteryState.BATTERY_STATE`. -/
def BatteryState.BATTERY_STATE : String := "battery_state"

/-- Modelled from `ramses_rf.device.heat`: the `SZ_*` string constants. -/
def SZ_CH_ACTIVE : String := "ch_active"

/-- Modelled from `ramses_rf.device.heat`. -/
def SZ_CH_ENABLED : String := "ch_enabled"

/-- Modelled from `ramses_rf.device.heat`. -/
def SZ_COOLING_ACTIVE : String := "cooling_active"

/-- Modelled from `ramses_rf.device.heat`. -/
def SZ_COOLING_ENABLED : String := "cooling_enabled"

/-- Modelled from `ramses_rf.device.heat`. -/
def SZ_DHW_ACTIVE : String := "dhw_active"

/-- Modelled from `ramses_rf.device.heat`. -/
def SZ_DHW_BLOCKING : String := "dhw_blocking"

/-- Modelled from `ramses_rf.device.heat`. -/
def SZ_DHW_ENABLED : String := "dhw_enabled"

/-- Modelled from `ramses_rf.device.heat`. -/
def SZ_FAULT_PRESENT : String := "fault_present"

/-- Modelled from `ramses_rf.device.heat`. -/
def SZ_FLAME_ACTIVE : String := "flame_active"

/-- Modelled from `ramses_rf.device.heat`. -/
def SZ_OTC_ACTIVE : String := "otc_active"

/-- Modelled from `ramses_rf.device.heat`. -/
def SZ_SUMMER_MODE : String := "summer_mode"

/-- Modelled from `ramses_tx.const`. -/
def SZ_BYPASS_POSITION : String := "bypass_position"

/-- Modelled from `const.py` (this repository, not under src): the
extra-attribute names. -/
def ATTR_ACTIVE_FAULT : String := "active_fault"

/-- Modelled from `const.py`. -/
def ATTR_BATTERY_LEVEL : String := "battery_level"

/-- Modelled from `const.py`. -/
def ATTR_LATEST_EVENT : String := "latest_event"

/-- Modelled from `const.py`. -/
def ATTR_LATEST_FAULT : String := "latest_fault"

/-- Modelled from `const.py`. -/
def ATTR_WORKING_SCHEMA : String := "working_schema"

/-- `RamsesBinarySensorEntityDescription` (`binary_sensor.py`): the
declarative record describing one binary-sensor entity.  `attr_arg` is the
`attr` value passed to the constructor (`none` when not given); the
post-init `attr` is the function `RamsesBinarySensorEntityDescription.attr`
below. -/
structure RamsesBinarySensorEntityDescription where
  key : String
  name : Option String := none
  attr_arg : Option String := none
  entity_class : Option BinarySensorClass := none
  rf_class : RfClass := .ramsesRFEntity
  device_class : Option String := none
  icon : Option String := none
  icon_off : Option String := none
  extra_attributes : Option (List (String × String)) := none
  entity_registry_enabled_default : Bool := true
deriving DecidableEq

/-- `__post_init__` (`binary_sensor.py`): `self.attr = self.attr or
self.key`, so `attr` defaults to `key` when not given (or falsy). -/
def RamsesBinarySensorEntityDescription.attr
    (d : RamsesBinarySensorEntityDescription) : String :=
  match d.attr_arg with
  | some s => if s.isEmpty then d.key else s
  | none => d.key

/-- The `sensor_types` mapping table of `async_setup_platform`
(`binary_sensor.py`), transcribed entry by entry. -/
def sensor_types : List RamsesBinarySensorEntityDescription :=
  [{ key := "gateway", name := some "Gateway", rf_class := .gateway,
     entity_class := some .gatewaySensor, device_class := some "problem" },
   { key := "system", name := some "System", rf_class := .system,
     entity_class := some .systemSensor, device_class := some "problem",
     extra_attributes := some [(ATTR_WORKING_SCHEMA, SZ_SCHEMA)] },
   { key := TrvActuator.WINDOW_OPEN, name := some "Window open",
     device_class := some "window" },
   { key := Actuator.ACTUATOR_STATE, name := some "Actuator state",
     icon := some "mdi:electric-switch",
     icon_off := some "mdi:electric-switch-closed" },
   { key := BatteryState.BATTERY_LOW, device_class := some "battery",
     extra_attributes := some [(ATTR_BATTERY_LEVEL, BatteryState.BATTERY_STATE)] },
   { key := "active_fault", name := some "Active fault", rf_class := .logbook,
     entity_class := some .logbookSensor, device_class := some "problem",
     extra_attributes := some
       [(ATTR_ACTIVE_FAULT, "active_fault"),
        (ATTR_LATEST_EVENT, "latest_event"),
        (ATTR_LATEST_FAULT, "latest_fault")] },
   { key := SZ_CH_ACTIVE, name := some "CH active" },
   { key := SZ_CH_ENABLED, name := some "CH enabled" },
   { key := SZ_COOLING_ACTIVE, name := some "Cooling active",
     icon := some "mdi:snowflake", icon_off := some "mdi:snowflake-off" },
   { key := SZ_COOLING_ENABLED, name := some "Cooling enabled" },
   { key := SZ_DHW_ACTIVE, name := some "DHW active" },
   { key := SZ_DHW_ENABLED, name := some "DHW enabled" },
   { key := SZ_FLAME_ACTIVE, name := some "Flame active",
     icon := some "mdi:circle-outline", icon_off := some "mdi:fire-circle" },
   { key := SZ_DHW_BLOCKING, name := some "DHW blocking" },
   { key := SZ_OTC_ACTIVE, name := some "Outside temperature control active" },
   { key := SZ_SUMMER_MODE, name := some "Summer mode" },
   { key := SZ_FAULT_PRESENT, name := some "Fault present" },
   { key := SZ_BYPASS_POSITION, name := some "Bypass position" },
   { key := "bit_2_4", entity_registry_enabled_default := false },
   { key := "bit_2_5", entity_registry_enabled_default := false },
   { key := "bit_2_6", entity_registry_enabled_default := false },
   { key := "bit_2_7", entity_registry_enabled_default := false },
   { key := "bit_3_7", entity_registry_enabled_default := false },
   { key := "bit_6_6", entity_registry_enabled_default := false }]

/-- A constructed binary-sensor entity: its class
(`description.entity_class or RamsesBinarySensor`), the device and
description it was built from, and the `entity_id`/`unique_id` set by
`RamsesBinarySensor.__init__`. -/
structure RamsesBinarySensor where
  cls : BinarySensorClass
  device : Device
  entity_description : RamsesBinarySensorEntityDescription
  entity_id : String
  unique_id : String
deriving DecidableEq

/-- Construction of one entity by `async_setup_platform`:
`(description.entity_class or RamsesBinarySensor)(broker, device,
description)`, with `RamsesBinarySensor.__init__` setting `entity_id` from
the device id and the description's `attr`, and `unique_id` from the device
id and the description's `key`. -/
def mkBinarySensor (device : Device)
    (desc : RamsesBinarySensorEntityDescription) : RamsesBinarySensor :=
  { cls := desc.entity_class.getD .generic,
    device := device,
    entity_description := desc,
    entity_id := "binary_sensor." ++ device.id ++ "_" ++ desc.attr,
    unique_id := device.id ++ "-" ++ desc.key }

/-- The entity list built by `async_setup_platform` (`binary_sensor.py`):
one entity per discovered device and table description such that the device
is an instance of the description's `rf_class` and has an attribute named by
the description's `key`. -/
def async_setup_platform_entities (devices : List Device) :
    List RamsesBinarySensor :=
  devices.flatMap fun device =>
    (sensor_types.filter fun desc =>
        device.classes.contains desc.rf_class && device.pyHasattr desc.key).map
      (mkBinarySensor device)

/-- `RamsesBinarySensor.is_on` (`binary_sensor.py`):
`getattr(self._device, self.entity_description.attr)`; `none` models a
raised `AttributeError`. -/
def RamsesBinarySensor.is_on (s : RamsesBinarySensor) : Option PyVal :=
  s.device.pyGetattr s.entity_description.attr

/-- Modelled behavior of the host platform's `BinarySensorEntity.state`:
`None` when `is_on` is `None`, else `STATE_ON`/`STATE_OFF` by truthiness.
The outer `Option` propagates an exception raised by `is_on`. -/
def RamsesBinarySensor.state (s : RamsesBinarySensor) :
    Option (Option String) :=
  s.is_on.map fun v =>
    if v = .pnone then none else some (if v.truthy then "on" else "off")

/-- `RamsesBinarySensor.available` (`binary_sensor.py`):
`self.state is not None`.  The outer `Option` propagates an exception
raised by `state`. -/
def RamsesBinarySensor.available (s : RamsesBinarySensor) : Option Bool :=
  s.state.map Option.isSome

/-- C1 counterexample: a setup that succeeds with the `send_packet` advanced
feature disabled registers only three services; the `send_packet` service is
not registered, so the claim that all four services are registered on every
successful setup is false. -/
theorem setup_without_send_packet_counterexample :
    (async_setup ⟨none, [], 0⟩ ⟨⟨none, false⟩, none⟩ .ok).1 = true ∧
    (⟨DOMAIN, SVC_SEND_PACKET⟩ : ServiceReg) ∉
      (async_setup ⟨none, [], 0⟩ ⟨⟨none, false⟩, none⟩ .ok).2.services := by
  exact ⟨rfl, by decide⟩

/-- C1 (amended): every successful setup registers the `bind_device`,
`fake_device` and `force_update` service handlers under the integration's
domain, and registers `send_packet` exactly when the `send_packet` advanced
feature is enabled in the broker's configuration. -/
theorem async_setup_registers_domain_services (st : HassState) (b : Broker) :
    (async_setup st b .ok).2.services = st.services ++ register_domain_services b ∧
    (⟨DOMAIN, SVC_BIND_DEVICE⟩ : ServiceReg) ∈ register_domain_services b ∧
    (⟨DOMAIN, SVC_FAKE_DEVICE⟩ : ServiceReg) ∈ register_domain_services b ∧
    (⟨DOMAIN, SVC_FORCE_UPDATE⟩ : ServiceReg) ∈ register_domain_services b ∧
    ((⟨DOMAIN, SVC_SEND_PACKET⟩ : ServiceReg) ∈ register_domain_services b ↔
      b.advanced_features.send_packet = true) := by
  refine ⟨rfl, ?_, ?_, ?_, ?_⟩ <;>
    cases hs : b.advanced_features.send_packet <;>
      simp [register_domain_services, hs, DOMAIN, SVC_BIND_DEVICE, SVC_FAKE_DEVICE,
        SVC_FORCE_UPDATE, SVC_SEND_PACKET]

/-- Membership in the message-event block: exactly the message event, when
the regex is set and matches. -/
theorem mem_messagePartEvents (b : Broker) (m : Msg) (ev : BusEvent) :
    ev ∈ messagePartEvents b m ↔
      (∃ regex, b.advanced_features.message_events = some regex ∧
        regex m.repr_str = true) ∧
      ev = ⟨DOMAIN ++ "_message", messageEventData m⟩ := by
  unfold messagePartEvents
  cases hr : b.advanced_features.message_events with
  | none => simp
  | some regex => by_cases hmatch : regex m.repr_str = true <;> simp [hmatch]

/-- Membership in the learn-event block: exactly the learn event, when
`learn_device_id` is truthy and equals the source id. -/
theorem mem_learnPartEvents (b : Broker) (m : Msg) (ev : BusEvent) :
    ev ∈ learnPartEvents b m ↔
      (∃ lid, b.learn_device_id = some lid ∧ lid.isEmpty = false ∧
        lid = m.src_id) ∧
      ev = ⟨DOMAIN ++ "_learn", learnEventData m⟩ := by
  unfold learnPartEvents
  cases hl : b.learn_device_id with
  | none => simp
  | some lid =>
      by_cases hm : (!lid.isEmpty && lid == m.src_id) = true
      · rw [Bool.and_eq_true, Bool.not_eq_true', beq_iff_eq] at hm
        obtain ⟨h1, h2⟩ := hm
        subst h2
        simp [h1]
      · have hm' : (!lid.isEmpty && lid == m.src_id) = false := by
          simpa using hm
        simp only [hm', if_false]
        constructor
        · intro h
          simp at h
        · rintro ⟨⟨lid', heq, h1, h2⟩, _⟩
          obtain rfl : lid = lid' := by injection heq
          subst h2
          simp [h1] at hm'

/-- C2: the registered message handler fires a `ramses_cc_message` event
carrying the message's dtm, src, dst, verb, code, payload and packet if and
only if the configured message-events regex is set and matches the
message's repr. -/
theorem process_msg_fires_message_event (b : Broker) (m : Msg) :
    (⟨DOMAIN ++ "_message", messageEventData m⟩ : BusEvent) ∈ process_msg b m ↔
      ∃ regex, b.advanced_features.message_events = some regex ∧
        regex m.repr_str = true := by
  rw [process_msg, List.mem_append, mem_messagePartEvents, mem_learnPartEvents]
  simp [messageEventData, learnEventData]

/-- C6: the registered message handler fires a `ramses_cc_learn` event
carrying the message's src, code and packet if and only if the broker's
`learn_device_id` is set (truthy: non-None and non-empty) and equals the
message's source id. -/
theorem process_msg_fires_learn_event (b : Broker) (m : Msg) :
    (⟨DOMAIN ++ "_learn", learnEventData m⟩ : BusEvent) ∈ process_msg b m ↔
      ∃ lid, b.learn_device_id = some lid ∧ lid.isEmpty = false ∧
        lid = m.src_id := by
  rw [process_msg, List.mem_append, mem_messagePartEvents, mem_learnPartEvents]
  simp [messageEventData, learnEventData]

/-- C8: setup is atomic on transport failure: when `broker.start` raises
`TransportSerialError`, `async_setup` returns `False` and leaves the host
state unchanged (no broker stored, no services registered, no message
handler added); when it succeeds, `async_setup` returns `True`, stores the
broker, registers the domain services and adds one message handler. -/
theorem async_setup_atomic (st : HassState) (b : Broker) (e : String) :
    async_setup st b (.transportSerialError e) = (false, st) ∧
    (async_setup st b .ok).1 = true ∧
    (async_setup st b .ok).2.data_broker = some b ∧
    (async_setup st b .ok).2.services = st.services ++ register_domain_services b ∧
    (async_setup st b .ok).2.client_msg_handlers = st.client_msg_handlers + 1 :=
  ⟨rfl, rfl, rfl, rfl, rfl⟩

/-- C5: the bind-device and fake-device handlers pass the call data to the
client's `fake_device` operation; on `LookupError` they return normally with
no deferred broker update, and on normal return they schedule a broker
update 5 seconds later.  (The client operation is modelled by the two
outcomes the handlers distinguish.) -/
theorem bind_fake_device_handlers (f : CallData → FakeResult) (d : CallData) :
    (async_bind_device f d).client_called_with = d ∧
    (async_fake_device f d).client_called_with = d ∧
    (∀ e, f d = .lookupError e →
      (async_bind_device f d).scheduled_delay = none ∧
      (async_fake_device f d).scheduled_delay = none) ∧
    (f d = .ok →
      (async_bind_device f d).scheduled_delay = some 5 ∧
      (async_fake_device f d).scheduled_delay = some 5) := by
  refine ⟨?_, ?_, ?_, ?_⟩ <;>
    cases hf : f d <;>
      simp [async_bind_device, async_fake_device, hf]

/-- C5 witness: at a concrete client returning normally the update is
scheduled 5 seconds later, and at a concrete client raising `LookupError`
no update is scheduled. -/
theorem bind_fake_device_handlers_witness :
    (async_bind_device (fun _ => .ok) []).scheduled_delay = some 5 ∧
    (async_bind_device (fun _ => .lookupError "device not known") []).scheduled_delay = none :=
  ⟨((bind_fake_device_handlers (fun _ => .ok) []).2.2.2 rfl).1,
   ((bind_fake_device_handlers (fun _ => .lookupError "device not known") []).2.2.1
      "device not known" rfl).1⟩

/-- C9: `async_send_packet` replaces the sentinel `device_id` `"18:000730"`
by the client's gateway id exactly when `from_id` is absent or the sentinel
and the gateway id is truthy, leaving every other field unchanged; in all
other cases the call data is passed through unchanged. -/
theorem async_send_packet_gateway_substitution (hgi : String) (d : SendPacketData) :
    (d.device_id = "18:000730" →
      (d.from_id = none ∨ d.from_id = some "18:000730") →
      hgi.isEmpty = false →
      async_send_packet hgi d = { d with device_id := hgi }) ∧
    (d.device_id ≠ "18:000730" → async_send_packet hgi d = d) ∧
    (∀ f, d.from_id = some f → f ≠ "18:000730" → async_send_packet hgi d = d) ∧
    (hgi.isEmpty = true → async_send_packet hgi d = d) := by
  refine ⟨?_, ?_, ?_, ?_⟩
  · intro h1 h2 h3
    have hf : d.from_id.getD "18:000730" = "18:000730" := by
      rcases h2 with h | h <;> simp [h]
    simp [async_send_packet, h1, hf, h3]
  · intro h1
    simp [async_send_packet, h1]
  · intro f hf hne
    simp [async_send_packet, hf, hne]
  · intro h
    simp [async_send_packet, h]

/-- C9 witness: a concrete call with the sentinel device id, no `from_id`
and a truthy gateway id has its `device_id` replaced by the gateway id and
all other fields unchanged. -/
theorem async_send_packet_gateway_substitution_witness :
    async_send_packet "18:123456" ⟨"18:000730", none, " I", "1FC9", "00"⟩ =
      ⟨"18:123456", none, " I", "1FC9", "00"⟩ :=
  (async_send_packet_gateway_substitution "18:123456"
      ⟨"18:000730", none, " I", "1FC9", "00"⟩).1 rfl (Or.inl rfl) (by decide)

/-- C3: an entity is in the list built by `async_setup_platform` exactly
when it is built from a discovered device and a table description such that
the device is an instance of the description's `rf_class` and has an
attribute named by the description's `key`; no other entities are
created. -/
theorem async_setup_platform_entities_mem (devices : List Device)
    (e : RamsesBinarySensor) :
    e ∈ async_setup_platform_entities devices ↔
      ∃ device ∈ devices, ∃ desc ∈ sensor_types,
        device.classes.contains desc.rf_class = true ∧
        device.pyHasattr desc.key = true ∧
        e = mkBinarySensor device desc := by
  simp only [async_setup_platform_entities, List.mem_flatMap, List.mem_map,
    List.mem_filter, Bool.and_eq_true]
  constructor
  · rintro ⟨device, hdev, desc, ⟨hmem, hcls, hattr⟩, rfl⟩
    exact ⟨device, hdev, desc, hmem, hcls, hattr, rfl⟩
  · rintro ⟨device, hdev, desc, hmem, hcls, hattr, rfl⟩
    exact ⟨device, hdev, desc, ⟨hmem, hcls, hattr⟩, rfl⟩

/-- C4: the generic binary sensor's `is_on` is the value of the device
attribute named by the description's `attr`, and `attr` equals the
description's `key` whenever `attr` was not explicitly given. -/
theorem ramses_binary_sensor_is_on_attr_getter (device : Device)
    (desc : RamsesBinarySensorEntityDescription) :
    (mkBinarySensor device desc).is_on = device.pyGetattr desc.attr ∧
    (desc.attr_arg = none → desc.attr = desc.key) := by
  refine ⟨rfl, fun h => ?_⟩
  simp [RamsesBinarySensorEntityDescription.attr, h]

/-- C4 witness: a concrete sensor for a window-open attribute reads that
attribute, and its description's `attr` defaulted to its `key`. -/
theorem ramses_binary_sensor_is_on_attr_getter_witness :
    (mkBinarySensor ⟨"04:111111", [.ramsesRFEntity], [("window_open", .pbool true)]⟩
        { key := "window_open" }).is_on = some (.pbool true) ∧
    ({ key := "window_open" } : RamsesBinarySensorEntityDescription).attr =
      "window_open" :=
  ⟨((ramses_binary_sensor_is_on_attr_getter
      ⟨"04:111111", [.ramsesRFEntity], [("window_open", .pbool true)]⟩
      { key := "window_open" }).1).trans (by decide),
   (ramses_binary_sensor_is_on_attr_getter
      ⟨"04:111111", [.ramsesRFEntity], [("window_open", .pbool true)]⟩
      { key := "window_open" }).2 rfl⟩

/-- C10: for a generic binary sensor whose mapped device attribute exists,
`available` is true exactly when the attribute's value (the sensor's state
source) is not `None`; in particular a sensor whose mapped attribute is
`None` is reported unavailable. -/
theorem ramses_binary_sensor_available_iff (s : RamsesBinarySensor) (v : PyVal)
    (h : s.is_on = some v) :
    (s.available = some true ↔ v ≠ PyVal.pnone) ∧
    (v = PyVal.pnone → s.available = some false) := by
  constructor
  · by_cases hv : v = PyVal.pnone <;>
      simp [RamsesBinarySensor.available, RamsesBinarySensor.state, h, hv]
  · intro hv
    simp [RamsesBinarySensor.available, RamsesBinarySensor.state, h, hv]

/-- C10 witness: a concrete sensor whose `ch_active` attribute is `None` is
unavailable. -/
theorem ramses_binary_sensor_available_iff_witness :
    (mkBinarySensor ⟨"01:222222", [.ramsesRFEntity], [("ch_active", .pnone)]⟩
        { key := "ch_active" }).available = some false :=
  (ramses_binary_sensor_available_iff
      (mkBinarySensor ⟨"01:222222", [.ramsesRFEntity], [("ch_active", .pnone)]⟩
        { key := "ch_active" })
      PyVal.pnone (by decide)).2 rfl

end RamsesCC
